import Mathlib

/-!
Shallow embedding of the bazaar scanner (`scan_bazaars.py`) and proofs of
the specified properties.  Database tables become lists of rows, the
in-memory items cache becomes an association list, external HTTP responses
become inductive response values, and wall-clock timestamps become abstract
natural numbers supplied by the caller.
-/

namespace BazaarScan

/-- One entry of the in-memory items cache built by
BazaarScanner._fetch_items_metadata (the `item` dict). -/
structure CatalogItem where
  id : Nat
  name : String
  category : String
  subtype : String
  market_value : Int
deriving Repr, DecidableEq

/-- One row of the `items` table. -/
structure ItemRow where
  item_id : Nat
  name : String
  category : String
  subtype : String
  market_value : Int
  last_updated : Nat
deriving Repr, DecidableEq

/-- One row of the `trader_ids` table. -/
structure Trader where
  player_id : Nat
  last_checked : Option Nat
  active : Bool
deriving Repr, DecidableEq

/-- One row of the `listings` table (the synthetic AUTOINCREMENT key is not
modelled; rows are identified by their position in the list). -/
structure Listing where
  item_id : Nat
  item_name : String
  category : String
  price : Int
  quantity : Int
  seller_id : Nat
  seller_name : String
  market_value : Int
  timestamp : Nat
deriving Repr, DecidableEq

/-- One row of the `scan_history` table. -/
structure ScanRecord where
  id : Nat
  start_time : Nat
  end_time : Option Nat
  traders_scanned : Nat
  items_found : Nat
  status : String
deriving Repr, DecidableEq

/-- The SQLite database state: the four tables used by the scanner. -/
structure DB where
  trader_ids : List Trader
  items : List ItemRow
  listings : List Listing
  scan_history : List ScanRecord
deriving Repr, DecidableEq

/-- The in-memory `items_cache` dict, as an association list keyed by item id. -/
abbrev Cache := List (Nat × CatalogItem)

/-- One entry of the Torn catalog response: the optional fields the code
reads with .get.  A key that is not a decimal integer is modelled by the
`Option Nat` key being `none` (Python int() raises on it). -/
structure RawCatalogEntry where
  name : Option String
  rtype : Option String
  weapon_type : Option String
  drug_type : Option String
  market_value : Option Int
deriving Repr, DecidableEq

/-- Outcome of the HTTP request made by _fetch_items_metadata:
the request itself fails (network error, timeout, bad HTTP status, JSON
parse failure), the payload lacks the `items` key, or a payload whose
entries are given in iteration order. -/
inductive CatalogResponse where
  | netFailure
  | noItemsKey
  | ok (entries : List (Option Nat × RawCatalogEntry))
deriving Repr, DecidableEq

/-- One bazaar entry of the per-seller response. -/
structure RawBazaarEntry where
  name : Option String
  category : Option String
  price : Option Int
  quantity : Option Int
  market_value : Option Int
deriving Repr, DecidableEq

/-- Outcome of the HTTP request made by _get_player_bazaar: the request
itself fails (exception before any database write), the payload carries an
`error` object with a numeric code, or a normal payload with an optional
player name and a bazaar mapping (absent and empty bazaars are both the
empty list). -/
inductive BazaarResponse where
  | netFailure
  | apiError (code : Nat)
  | ok (player_name : Option String) (bazaar : List (Nat × RawBazaarEntry))
deriving Repr, DecidableEq

/-- Python `or` on strings: the first operand unless it is empty. -/
def pyStrOr (a b : String) : String := if a = "" then b else a

/-- The `item` dict built for one catalog entry in _fetch_items_metadata. -/
def mkCatalogItem (id : Nat) (d : RawCatalogEntry) : CatalogItem :=
  { id := id
    name := d.name.getD "Unknown"
    category := d.rtype.getD "Miscellaneous"
    subtype := pyStrOr (d.weapon_type.getD "") (pyStrOr (d.drug_type.getD "") "")
    market_value := d.market_value.getD 0 }

/-- The `items` row written for one catalog entry (INSERT OR REPLACE). -/
def mkItemRow (id : Nat) (d : RawCatalogEntry) (now : Nat) : ItemRow :=
  { item_id := id
    name := d.name.getD "Unknown"
    category := d.rtype.getD "Miscellaneous"
    subtype := pyStrOr (d.weapon_type.getD "") (pyStrOr (d.drug_type.getD "") "")
    market_value := d.market_value.getD 0
    last_updated := now }

/-- Dict assignment `items_cache[item_id] = item`. -/
def cacheInsert (cache : Cache) (it : CatalogItem) : Cache :=
  cache.filter (fun p => p.1 != it.id) ++ [(it.id, it)]

/-- Dict lookup `items_cache.get(item_id, {})`, `none` playing the role of
the empty default dict. -/
def cacheGet (cache : Cache) (id : Nat) : Option CatalogItem :=
  (cache.find? (fun p => p.1 == id)).map (fun p => p.2)

/-- `INSERT OR REPLACE INTO items`. -/
def dbUpsertItem (db : DB) (row : ItemRow) : DB :=
  { db with items := db.items.filter (fun r => r.item_id != row.item_id) ++ [row] }

/-- The per-entry loop of _fetch_items_metadata.  Entries are processed in
order; a key on which int() raises aborts the loop (the exception is caught
by the surrounding handler, which returns False), leaving the cache and
database entries already written in place. -/
def processCatalogEntries (cache : Cache) (db : DB) (now : Nat) :
    List (Option Nat × RawCatalogEntry) → Cache × DB × Bool
  | [] => (cache, db, true)
  | (none, _) :: _ => (cache, db, false)
  | (some id, d) :: rest =>
      processCatalogEntries (cacheInsert cache (mkCatalogItem id d))
        (dbUpsertItem db (mkItemRow id d now)) now rest

/-- BazaarScanner._fetch_items_metadata. -/
def fetchItemsMetadata (cache : Cache) (db : DB) (now : Nat) :
    CatalogResponse → Cache × DB × Bool
  | .netFailure => (cache, db, false)
  | .noItemsKey => (cache, db, false)
  | .ok entries => processCatalogEntries cache db now entries

/-- `UPDATE trader_ids SET last_checked = ? WHERE player_id = ?`. -/
def setLastChecked (db : DB) (pid now : Nat) : DB :=
  { db with trader_ids := db.trader_ids.map (fun t =>
      if t.player_id == pid then { t with last_checked := some now } else t) }

/-- `UPDATE trader_ids SET active = 0 WHERE player_id = ?`. -/
def deactivateTrader (db : DB) (pid : Nat) : DB :=
  { db with trader_ids := db.trader_ids.map (fun t =>
      if t.player_id == pid then { t with active := false } else t) }

/-- The `item` dict built for one bazaar entry in _get_player_bazaar. -/
structure BazaarItem where
  item_id : Nat
  item_name : String
  category : String
  price : Int
  quantity : Int
  seller_id : Nat
  seller_name : String
  market_value : Int
deriving Repr, DecidableEq

def mkBazaarItem (cache : Cache) (pid : Nat) (player_name : String)
    (e : Nat × RawBazaarEntry) : BazaarItem :=
  let info := cacheGet cache e.1
  { item_id := e.1
    item_name := e.2.name.getD (match info with
      | some c => c.name
      | none => "Unknown Item")
    category := e.2.category.getD (match info with
      | some c => c.category
      | none => "Miscellaneous")
    price := e.2.price.getD 0
    quantity := e.2.quantity.getD 1
    seller_id := pid
    seller_name := player_name
    market_value := e.2.market_value.getD (match info with
      | some c => c.market_value
      | none => 0) }

/-- BazaarScanner._get_player_bazaar: returns the updated database and the
list of bazaar item dicts (the empty list on errors and empty bazaars).
A request-level failure raises before the last_checked UPDATE, so the
database is returned unchanged in that case. -/
def getPlayerBazaar (cache : Cache) (db : DB) (pid now : Nat) :
    BazaarResponse → DB × List BazaarItem
  | .netFailure => (db, [])
  | .apiError code =>
      let db1 := setLastChecked db pid now
      if code == 6 then (deactivateTrader db1 pid, []) else (db1, [])
  | .ok pname bazaar =>
      let db1 := setLastChecked db pid now
      if bazaar.isEmpty then (db1, [])
      else
        let player_name := pname.getD ("Player " ++ toString pid)
        (db1, bazaar.map (mkBazaarItem cache pid player_name))

/-- The `listings` row inserted for one bazaar item dict. -/
def mkListing (now : Nat) (it : BazaarItem) : Listing :=
  { item_id := it.item_id
    item_name := it.item_name
    category := it.category
    price := it.price
    quantity := it.quantity
    seller_id := it.seller_id
    seller_name := it.seller_name
    market_value := it.market_value
    timestamp := now }

/-- BazaarScanner._store_bazaar_items: delete existing listings of the
sellers present in the batch, then insert every item of the batch. -/
def storeBazaarItems (db : DB) (items : List BazaarItem) (now : Nat) : DB :=
  let sellerIds := items.map (fun it => it.seller_id)
  let db1 := if items.isEmpty then db
    else { db with listings :=
      db.listings.filter (fun l => !(sellerIds.contains l.seller_id)) }
  { db1 with listings := db1.listings ++ items.map (mkListing now) }

/-- The listing rows currently stored for one seller. -/
def sellerListings (pid : Nat) (db : DB) : List Listing :=
  db.listings.filter (fun l => l.seller_id == pid)

/-- ORDER BY last_checked ASC NULLS FIRST comparator. -/
def lastCheckedLE (a b : Trader) : Bool :=
  match a.last_checked, b.last_checked with
  | none, _ => true
  | some _, none => false
  | some x, some y => x ≤ y

def insertTrader (t : Trader) : List Trader → List Trader
  | [] => [t]
  | x :: xs => if lastCheckedLE t x then t :: x :: xs else x :: insertTrader t xs

def sortTraders : List Trader → List Trader
  | [] => []
  | x :: xs => insertTrader x (sortTraders xs)

/-- The SELECT that loads candidate sellers: active traders ordered by
last_checked ascending with NULLS FIRST, optionally capped by LIMIT.
Python `if limit:` treats a limit of 0 as no limit. -/
def activeTraders (db : DB) (limit : Option Nat) : List Nat :=
  let ids := (sortTraders (db.trader_ids.filter (fun t => t.active))).map
    (fun t => t.player_id)
  match limit with
  | none => ids
  | some n => if n = 0 then ids else ids.take n

/-- AUTOINCREMENT key for a new scan_history row. -/
def nextScanId (db : DB) : Nat :=
  (db.scan_history.map (fun r => r.id)).foldl max 0 + 1

/-- BazaarScanner._start_scan: insert a `running` record, return its id. -/
def startScan (db : DB) (now : Nat) : DB × Nat :=
  let sid := nextScanId db
  ({ db with scan_history := db.scan_history ++
      [{ id := sid, start_time := now, end_time := none,
         traders_scanned := 0, items_found := 0, status := "running" }] },
   sid)

/-- BazaarScanner._end_scan: finalize the record as `completed` with counts. -/
def endScan (db : DB) (sid traders items now : Nat) : DB :=
  { db with scan_history := db.scan_history.map (fun r =>
      if r.id == sid then
        { r with end_time := some now, traders_scanned := traders,
                 items_found := items, status := "completed" }
      else r) }

/-- The except handler of BazaarScanner.scan: set end_time and status
`failed` on the open record.  Note that it does not write the counts. -/
def endScanFailed (db : DB) (sid now : Nat) : DB :=
  { db with scan_history := db.scan_history.map (fun r =>
      if r.id == sid then
        { r with end_time := some now, status := "failed" }
      else r) }

/-- In-memory state of the seller loop of BazaarScanner.scan, plus a trace
of the storeBazaarItems invocations (`flushes`) and of the seller fetches
(`fetchCalls`) for stating properties about them. -/
structure LoopState where
  db : DB
  tradersScanned : Nat
  itemsFound : Nat
  allItems : List BazaarItem
  flushes : List (List BazaarItem)
  fetchCalls : List Nat
deriving Repr, DecidableEq

/-- One iteration of the seller loop: fetch, accumulate, flush when the
accumulator holds at least 100 items. -/
def processTrader (cache : Cache) (resp : Nat → BazaarResponse)
    (st : LoopState) (pid now : Nat) : LoopState :=
  let r := getPlayerBazaar cache st.db pid now (resp pid)
  let allItems := st.allItems ++ r.2
  let st1 : LoopState :=
    { db := r.1
      tradersScanned := st.tradersScanned + 1
      itemsFound := st.itemsFound + r.2.length
      allItems := allItems
      flushes := st.flushes
      fetchCalls := st.fetchCalls ++ [pid] }
  if allItems.length ≥ 100 then
    { st1 with db := storeBazaarItems st1.db allItems now,
               allItems := [], flushes := st1.flushes ++ [allItems] }
  else st1

/-- The seller loop over a list of trader ids; `now` advances by one per
iteration (the only property that matters of the real clock is that each
call gets some timestamp). -/
def runLoop (cache : Cache) (resp : Nat → BazaarResponse) :
    List Nat → Nat → LoopState → LoopState
  | [], _, st => st
  | pid :: rest, now, st =>
      runLoop cache resp rest (now + 1) (processTrader cache resp st pid now)

/-- Result of a whole scan run: final database and cache, the return value
of scan, the trace of snapshot flushes, the trace of seller fetches, and
the final in-memory counters. -/
structure ScanResult where
  db : DB
  cache : Cache
  ok : Bool
  flushes : List (List BazaarItem)
  fetchCalls : List Nat
  tradersScanned : Nat
  itemsFound : Nat
deriving Repr, DecidableEq

/-- BazaarScanner.scan.  `resp` gives the external response for each seller
fetch; `crashAfter = some k` models an unexpected exception (for example a
storage write failure) raised inside the try block after the first k
sellers were processed, which the except handler turns into a `failed`
record; `crashAfter = none` is an exception-free run. -/
def scan (db : DB) (cache : Cache) (limit : Option Nat)
    (cresp : CatalogResponse) (resp : Nat → BazaarResponse)
    (crashAfter : Option Nat) (t0 : Nat) : ScanResult :=
  let m := fetchItemsMetadata cache db t0 cresp
  if !m.2.2 then
    { db := m.2.1, cache := m.1, ok := false, flushes := [],
      fetchCalls := [], tradersScanned := 0, itemsFound := 0 }
  else
    let s := startScan m.2.1 (t0 + 1)
    let ids := activeTraders s.1 limit
    if ids.isEmpty then
      { db := endScan s.1 s.2 0 0 (t0 + 2), cache := m.1, ok := false,
        flushes := [], fetchCalls := [], tradersScanned := 0, itemsFound := 0 }
    else
      let st0 : LoopState :=
        { db := s.1, tradersScanned := 0, itemsFound := 0, allItems := [],
          flushes := [], fetchCalls := [] }
      match crashAfter with
      | some k =>
          let st := runLoop m.1 resp (ids.take k) (t0 + 2) st0
          { db := endScanFailed st.db s.2 (t0 + 2 + k), cache := m.1,
            ok := false, flushes := st.flushes, fetchCalls := st.fetchCalls,
            tradersScanned := st.tradersScanned, itemsFound := st.itemsFound }
      | none =>
          let st := runLoop m.1 resp ids (t0 + 2) st0
          let final :=
            if st.allItems.isEmpty then (st.db, st.flushes)
            else (storeBazaarItems st.db st.allItems (t0 + 2 + ids.length),
                  st.flushes ++ [st.allItems])
          { db := endScan final.1 s.2 st.tradersScanned st.itemsFound
              (t0 + 3 + ids.length),
            cache := m.1, ok := true, flushes := final.2,
            fetchCalls := st.fetchCalls, tradersScanned := st.tradersScanned,
            itemsFound := st.itemsFound }

/-- Modelled from the spec: the metadata resolution rule as worded in 4.2 —
the per-listing response field takes precedence, then the catalog field,
then the default. -/
def specResolve {α : Type} (perListing : Option α) (catalogField : Option α)
    (dflt : α) : α :=
  match perListing with
  | some v => v
  | none => catalogField.getD dflt

/-- Modelled from the spec: the fields of the item built for one bazaar
entry, as worded in 4.2 — per-listing fields take precedence, catalog
fields are the fallback, then the defaults "Unknown Item", "Miscellaneous"
and reference value 0. -/
def specListingFields (cache : Cache) (pid : Nat) (player_name : String)
    (e : Nat × RawBazaarEntry) : BazaarItem :=
  { item_id := e.1
    item_name := specResolve e.2.name
      ((cacheGet cache e.1).map (fun c => c.name)) "Unknown Item"
    category := specResolve e.2.category
      ((cacheGet cache e.1).map (fun c => c.category)) "Miscellaneous"
    price := e.2.price.getD 0
    quantity := e.2.quantity.getD 1
    seller_id := pid
    seller_name := player_name
    market_value := specResolve e.2.market_value
      ((cacheGet cache e.1).map (fun c => c.market_value)) 0 }

/-! ### Basic preservation lemmas -/

theorem setLastChecked_listings (db : DB) (pid now : Nat) :
    (setLastChecked db pid now).listings = db.listings := rfl

theorem setLastChecked_scan_history (db : DB) (pid now : Nat) :
    (setLastChecked db pid now).scan_history = db.scan_history := rfl

theorem deactivateTrader_listings (db : DB) (pid : Nat) :
    (deactivateTrader db pid).listings = db.listings := rfl

theorem getPlayerBazaar_listings (cache : Cache) (db : DB) (pid now : Nat)
    (resp : BazaarResponse) :
    ((getPlayerBazaar cache db pid now resp).1).listings = db.listings := by
  cases resp with
  | netFailure => rfl
  | apiError code =>
      by_cases h : code == 6 <;>
        simp [getPlayerBazaar, h, setLastChecked, deactivateTrader]
  | ok pname bazaar =>
      by_cases h : bazaar.isEmpty <;> simp [getPlayerBazaar, h, setLastChecked]

theorem getPlayerBazaar_scan_history (cache : Cache) (db : DB) (pid now : Nat)
    (resp : BazaarResponse) :
    ((getPlayerBazaar cache db pid now resp).1).scan_history = db.scan_history := by
  cases resp with
  | netFailure => rfl
  | apiError code =>
      by_cases h : code == 6 <;>
        simp [getPlayerBazaar, h, setLastChecked, deactivateTrader]
  | ok pname bazaar =>
      by_cases h : bazaar.isEmpty <;> simp [getPlayerBazaar, h, setLastChecked]

theorem getPlayerBazaar_seller_id (cache : Cache) (db : DB) (pid now : Nat)
    (resp : BazaarResponse) :
    ∀ it ∈ (getPlayerBazaar cache db pid now resp).2, it.seller_id = pid := by
  cases resp with
  | netFailure => intro it hit; cases hit
  | apiError code =>
      intro it hit
      by_cases h : code == 6 <;> simp [getPlayerBazaar, h] at hit
  | ok pname bazaar =>
      intro it hit
      by_cases h : bazaar.isEmpty
      · simp [getPlayerBazaar, h] at hit
      · simp [getPlayerBazaar, h] at hit
        obtain ⟨e, he, hm, rfl⟩ := hit
        rfl

theorem storeBazaarItems_scan_history (db : DB) (items : List BazaarItem)
    (now : Nat) :
    (storeBazaarItems db items now).scan_history = db.scan_history := by
  by_cases h : items.isEmpty <;> simp [storeBazaarItems, h]

theorem storeBazaarItems_trader_ids (db : DB) (items : List BazaarItem)
    (now : Nat) :
    (storeBazaarItems db items now).trader_ids = db.trader_ids := by
  by_cases h : items.isEmpty <;> simp [storeBazaarItems, h]

theorem filter_self_idem {α : Type} (p : α → Bool) (l : List α) :
    (l.filter p).filter p = l.filter p := by
  induction l with
  | nil => rfl
  | cons x xs ih => by_cases h : p x <;> simp [List.filter_cons, h, ih]

theorem contains_of_mem {l : List Nat} {a : Nat} (h : a ∈ l) :
    l.contains a = true := by simpa using h

/-! ### Claim C8 -/

theorem storeBazaarItems_twice (db : DB) (b : List BazaarItem) (t1 t2 : Nat) :
    storeBazaarItems (storeBazaarItems db b t1) b t2
      = storeBazaarItems db b t2 := by
  cases b with
  | nil => simp [storeBazaarItems]
  | cons x xs =>
      cases db with
      | mk tids items ls sh =>
          have hnil :
              ((x :: xs).map (mkListing t1)).filter (fun l =>
                !(((x :: xs).map (fun it => it.seller_id)).contains l.seller_id))
              = [] := by
            rw [List.filter_eq_nil_iff]
            intro a ha
            obtain ⟨it, hit, rfl⟩ := List.mem_map.mp ha
            have hc : ((x :: xs).map (fun it => it.seller_id)).contains
                (mkListing t1 it).seller_id = true :=
              contains_of_mem (List.mem_map.mpr ⟨it, hit, rfl⟩)
            rw [hc]
            simp
          simp only [storeBazaarItems, List.isEmpty_cons, Bool.false_eq_true,
            if_false, List.filter_append, filter_self_idem, hnil,
            List.append_nil]

/-- Claim C8: re-fetching the same seller with an identical external
response fully replaces the old rows, so the listing rows stored for any
seller after storing the same batch twice are identical to those after
storing it once — no duplication or accumulation across repeated scans. -/
theorem c8_refetch_idempotent (db : DB) (b : List BazaarItem)
    (t1 t2 S : Nat) :
    sellerListings S (storeBazaarItems (storeBazaarItems db b t1) b t2)
      = sellerListings S (storeBazaarItems db b t2) := by
  rw [storeBazaarItems_twice]

/-! ### Claims C7 and C4: per-trader row updates of _get_player_bazaar -/

theorem map_pair_active_setLastChecked (l : List Trader) (pid now : Nat) :
    (l.map (fun t => if t.player_id == pid
        then { t with last_checked := some now } else t)).map
      (fun t => (t.player_id, t.active))
      = l.map (fun t => (t.player_id, t.active)) := by
  induction l with
  | nil => rfl
  | cons t ts ih =>
      simp only [List.map_cons, ih]
      by_cases h : t.player_id == pid <;> simp [h]

theorem map_pair_active_deactivate (l : List Trader) (pid : Nat) :
    (l.map (fun t => if t.player_id == pid
        then { t with active := false } else t)).map
      (fun t => (t.player_id, t.active))
      = l.map (fun t =>
          (t.player_id, if t.player_id = pid then false else t.active)) := by
  induction l with
  | nil => rfl
  | cons t ts ih =>
      simp only [List.map_cons, ih]
      by_cases h : t.player_id = pid <;> simp [h]

theorem map_pair_checked_setLastChecked (l : List Trader) (pid now : Nat) :
    (l.map (fun t => if t.player_id == pid
        then { t with last_checked := some now } else t)).map
      (fun t => (t.player_id, t.last_checked))
      = l.map (fun t =>
          (t.player_id,
           if t.player_id = pid then some now else t.last_checked)) := by
  induction l with
  | nil => rfl
  | cons t ts ih =>
      simp only [List.map_cons, ih]
      by_cases h : t.player_id = pid <;> simp [h]

theorem map_pair_checked_deactivate (l : List Trader) (pid : Nat) :
    (l.map (fun t => if t.player_id == pid
        then { t with active := false } else t)).map
      (fun t => (t.player_id, t.last_checked))
      = l.map (fun t => (t.player_id, t.last_checked)) := by
  induction l with
  | nil => rfl
  | cons t ts ih =>
      simp only [List.map_cons, ih]
      by_cases h : t.player_id == pid <;> simp [h]

/-- Claim C7: a fetch whose response carries an error code yields no items
and leaves the listings table untouched, and the active flags change
exactly so: on code 6 the fetched seller is deactivated, on any other code
every seller keeps its active flag. -/
theorem c7_api_error_outcome (cache : Cache) (db : DB) (pid now c : Nat) :
    (getPlayerBazaar cache db pid now (BazaarResponse.apiError c)).2 = []
  ∧ ((getPlayerBazaar cache db pid now (BazaarResponse.apiError c)).1).listings
      = db.listings
  ∧ ((getPlayerBazaar cache db pid now
        (BazaarResponse.apiError c)).1).trader_ids.map
        (fun t => (t.player_id, t.active))
      = db.trader_ids.map (fun t =>
          (t.player_id,
           if c = 6 ∧ t.player_id = pid then false else t.active)) := by
  refine ⟨?_, getPlayerBazaar_listings cache db pid now _, ?_⟩
  · by_cases h : c == 6 <;> simp [getPlayerBazaar, h]
  · by_cases h : c = 6
    · subst h
      simp only [getPlayerBazaar, beq_self_eq_true, if_true, deactivateTrader,
        setLastChecked]
      rw [map_pair_active_deactivate, List.map_map]
      apply List.map_congr_left
      intro t _
      by_cases hp : t.player_id = pid <;> simp [hp, Function.comp]
    · have hb : (c == 6) = false := by simpa using h
      simp only [getPlayerBazaar, hb, Bool.false_eq_true, if_false,
        setLastChecked]
      rw [map_pair_active_setLastChecked]
      apply List.map_congr_left
      intro t _
      simp [h]

/-- Claim C4 (amended): the last-checked timestamp of the fetched seller is
updated on every outcome for which an HTTP response body was obtained
(listings, empty, not-found, other API error); when the request itself
fails (network failure, timeout, bad status, parse error) the exception is
raised before the UPDATE and no timestamp changes. -/
theorem c4_amended_last_checked (cache : Cache) (db : DB) (pid now : Nat)
    (resp : BazaarResponse) :
    ((getPlayerBazaar cache db pid now resp).1).trader_ids.map
        (fun t => (t.player_id, t.last_checked))
      = db.trader_ids.map (fun t =>
          (t.player_id,
           if resp ≠ BazaarResponse.netFailure ∧ t.player_id = pid
           then some now else t.last_checked)) := by
  cases resp with
  | netFailure =>
      simp [getPlayerBazaar]
  | apiError c =>
      by_cases h : c == 6
      · simp only [getPlayerBazaar, h, if_true, deactivateTrader,
          setLastChecked]
        rw [map_pair_checked_deactivate, map_pair_checked_setLastChecked]
        apply List.map_congr_left
        intro t _
        by_cases hp : t.player_id = pid <;> simp [hp]
      · simp only [getPlayerBazaar, h, Bool.false_eq_true, if_false,
          setLastChecked]
        rw [map_pair_checked_setLastChecked]
        apply List.map_congr_left
        intro t _
        by_cases hp : t.player_id = pid <;> simp [hp]
  | ok pname bazaar =>
      by_cases h : bazaar.isEmpty <;>
        · simp only [getPlayerBazaar, h, Bool.false_eq_true, if_true, if_false,
            setLastChecked]
          rw [map_pair_checked_setLastChecked]
          apply List.map_congr_left
          intro t _
          by_cases hp : t.player_id = pid <;> simp [hp]

/-- Claim C4 counterexample: a fetch whose HTTP request fails (network
error or timeout) does not update the last-checked timestamp of the
seller, contrary to the claim that every fetch call does: seller 7 keeps
last_checked = none. -/
theorem c4_counterexample :
    ((getPlayerBazaar [] ⟨[⟨7, none, true⟩], [], [], []⟩ 7 5
        BazaarResponse.netFailure).1).trader_ids = [⟨7, none, true⟩]
  ∧ ¬ ∀ t ∈ ((getPlayerBazaar [] ⟨[⟨7, none, true⟩], [], [], []⟩ 7 5
        BazaarResponse.netFailure).1).trader_ids,
      t.player_id = 7 → t.last_checked = some 5 := by
  constructor
  · rfl
  · decide

/-! ### Claims C6 and C10: field resolution for fetched listings -/

theorem mkBazaarItem_eq_spec (cache : Cache) (pid : Nat) (pn : String)
    (e : Nat × RawBazaarEntry) :
    mkBazaarItem cache pid pn e = specListingFields cache pid pn e := by
  cases hc : cacheGet cache e.1 <;> cases hn : e.2.name <;>
    cases hcat : e.2.category <;> cases hm : e.2.market_value <;>
      simp [mkBazaarItem, specListingFields, specResolve, hc, hn, hcat, hm]

/-- Claim C6: every listing built from a successful fetch resolves its
name, category and market value with the per-listing response field first,
the catalog entry second, and the defaults "Unknown Item", "Miscellaneous"
and 0 last; in particular the catalog scenario of the spec — seller 1111111
selling item 100 at price 900, quantity 5, with catalog entry
(Xanax, Drug, 850) — yields exactly the expected listing. -/
theorem c6_metadata_resolution (cache : Cache) (db : DB) (pid now : Nat)
    (pname : Option String) (bazaar : List (Nat × RawBazaarEntry)) :
    (getPlayerBazaar cache db pid now (BazaarResponse.ok pname bazaar)).2
      = (if bazaar.isEmpty then []
         else bazaar.map (specListingFields cache pid
           (pname.getD ("Player " ++ toString pid))))
  ∧ (getPlayerBazaar [(100, ⟨100, "Xanax", "Drug", "", 850⟩)] ⟨[], [], [], []⟩
        1111111 0 (BazaarResponse.ok none
          [(100, ⟨none, none, some 900, some 5, none⟩)])).2
      = [⟨100, "Xanax", "Drug", 900, 5, 1111111, "Player 1111111", 850⟩] := by
  constructor
  · by_cases h : bazaar.isEmpty
    · simp [getPlayerBazaar, h]
    · simp only [getPlayerBazaar, h, Bool.false_eq_true, if_false]
      exact List.map_congr_left (fun e _ => mkBazaarItem_eq_spec cache pid _ e)
  · decide

/-- Claim C10: a bazaar entry that omits the price field yields a listing
with price 0, and one that omits the quantity field yields quantity 1. -/
theorem c10_price_quantity_defaults (cache : Cache) (db : DB) (pid now : Nat)
    (pname : Option String) (bazaar : List (Nat × RawBazaarEntry))
    (iid : Nat) (d : RawBazaarEntry) (hmem : (iid, d) ∈ bazaar) :
    ∃ it ∈ (getPlayerBazaar cache db pid now
        (BazaarResponse.ok pname bazaar)).2,
      it.item_id = iid ∧ (d.price = none → it.price = 0)
      ∧ (d.quantity = none → it.quantity = 1) := by
  have hne : bazaar.isEmpty = false := by
    cases bazaar with
    | nil => cases hmem
    | cons x xs => rfl
  refine ⟨mkBazaarItem cache pid (pname.getD ("Player " ++ toString pid))
    (iid, d), ?_, rfl, ?_, ?_⟩
  · simp only [getPlayerBazaar, hne, Bool.false_eq_true, if_false]
    exact List.mem_map_of_mem _ hmem
  · intro hp
    simp [mkBazaarItem, hp]
  · intro hq
    simp [mkBazaarItem, hq]

theorem c10_price_quantity_defaults_witness :
    ((100 : Nat), (⟨some "X", some "C", none, none, some 5⟩ : RawBazaarEntry))
        ∈ [((100 : Nat), (⟨some "X", some "C", none, none, some 5⟩ : RawBazaarEntry))]
  ∧ ∃ it ∈ (getPlayerBazaar [] ⟨[], [], [], []⟩ 9 0 (BazaarResponse.ok
        (some "Bob") [(100, ⟨some "X", some "C", none, none, some 5⟩)])).2,
      it.item_id = 100
      ∧ ((⟨some "X", some "C", none, none, some 5⟩ : RawBazaarEntry).price = none
          → it.price = 0)
      ∧ ((⟨some "X", some "C", none, none, some 5⟩ : RawBazaarEntry).quantity = none
          → it.quantity = 1) :=
  ⟨by decide,
   c10_price_quantity_defaults [] ⟨[], [], [], []⟩ 9 0 (some "Bob")
     [(100, ⟨some "X", some "C", none, none, some 5⟩)] 100
     ⟨some "X", some "C", none, none, some 5⟩ (by decide)⟩

/-! ### Claim C2: listing ownership per seller -/

theorem storeBazaarItems_nil (db : DB) (t : Nat) :
    storeBazaarItems db [] t = db := by
  cases db
  simp [storeBazaarItems]

theorem filter_filter_of_imp {α : Type} (p q : α → Bool) (l : List α)
    (h : ∀ a, p a = true → q a = true) :
    (l.filter q).filter p = l.filter p := by
  induction l with
  | nil => rfl
  | cons a as ih =>
      by_cases hq : q a
      · by_cases hp : p a <;> simp [List.filter_cons, hp, hq, ih]
      · have hp : p a = false := by
          cases hpa : p a
          · rfl
          · exact absurd (h a hpa) (by simp [hq])
        simp [List.filter_cons, hp, hq, ih]

theorem store_sellerListings_self (db : DB) (items : List BazaarItem)
    (t pid : Nat) (hall : ∀ it ∈ items, it.seller_id = pid)
    (hne : items ≠ []) :
    sellerListings pid (storeBazaarItems db items t)
      = items.map (mkListing t) := by
  cases items with
  | nil => exact absurd rfl hne
  | cons x xs =>
      have hpidmem : pid ∈ (x :: xs).map (fun it => it.seller_id) :=
        List.mem_map.mpr ⟨x, List.mem_cons_self x xs,
          hall x (List.mem_cons_self x xs)⟩
      simp only [storeBazaarItems, List.isEmpty_cons, Bool.false_eq_true,
        if_false, sellerListings, List.filter_append]
      have h1 : (db.listings.filter (fun l =>
            !(((x :: xs).map (fun it => it.seller_id)).contains l.seller_id))).filter
          (fun l => l.seller_id == pid) = [] := by
        rw [List.filter_eq_nil_iff]
        intro a ha
        rw [List.mem_filter] at ha
        have hnc : a.seller_id ∉ (x :: xs).map (fun it => it.seller_id) := by
          simpa using ha.2
        simp only [beq_iff_eq]
        intro heq
        rw [heq] at hnc
        exact hnc hpidmem
      have h2 : ((x :: xs).map (mkListing t)).filter
          (fun l => l.seller_id == pid) = (x :: xs).map (mkListing t) := by
        rw [List.filter_eq_self]
        intro a ha
        obtain ⟨it, hit, rfl⟩ := List.mem_map.mp ha
        simp [mkListing, hall it hit]
      rw [h1, h2, List.nil_append]

theorem store_sellerListings_other (db : DB) (items : List BazaarItem)
    (t pid S : Nat) (hall : ∀ it ∈ items, it.seller_id = pid)
    (hS : S ≠ pid) :
    sellerListings S (storeBazaarItems db items t) = sellerListings S db := by
  cases items with
  | nil => rw [storeBazaarItems_nil]
  | cons x xs =>
      simp only [storeBazaarItems, List.isEmpty_cons, Bool.false_eq_true,
        if_false, sellerListings, List.filter_append]
      have h2 : ((x :: xs).map (mkListing t)).filter
          (fun l => l.seller_id == S) = [] := by
        rw [List.filter_eq_nil_iff]
        intro a ha
        obtain ⟨it, hit, rfl⟩ := List.mem_map.mp ha
        have : (mkListing t it).seller_id = pid := hall it hit
        simp only [beq_iff_eq, this]
        exact fun heq => hS heq.symm
      rw [h2, List.append_nil]
      apply filter_filter_of_imp
      intro a ha
      have haS : a.seller_id = S := by simpa using ha
      have : a.seller_id ∉ (x :: xs).map (fun it => it.seller_id) := by
        intro hmem
        obtain ⟨it, hit, heq⟩ := List.mem_map.mp hmem
        exact hS (by rw [← haS, ← heq, hall it hit])
      simpa using this

/-- Claim C2 (amended): processing one seller fetch and flushing its items
changes only the rows the fetch produced: if the fetch yielded a non-empty
item list, the fetched seller ends up with exactly those rows and every
other seller keeps its rows; if the fetch yielded no items — empty bazaar,
not-found, API error or network failure alike — every seller, the fetched
one included, keeps its prior rows (an empty successful fetch does NOT
remove the prior listings of the seller). -/
theorem c2_amended_listing_ownership (cache : Cache) (db : DB)
    (pid now S : Nat) (resp : BazaarResponse) :
    sellerListings S (storeBazaarItems (getPlayerBazaar cache db pid now resp).1
        (getPlayerBazaar cache db pid now resp).2 now)
      = if (getPlayerBazaar cache db pid now resp).2 ≠ [] ∧ S = pid
        then ((getPlayerBazaar cache db pid now resp).2).map (mkListing now)
        else sellerListings S db := by
  have hl : ((getPlayerBazaar cache db pid now resp).1).listings = db.listings :=
    getPlayerBazaar_listings cache db pid now resp
  have hall : ∀ it ∈ (getPlayerBazaar cache db pid now resp).2,
      it.seller_id = pid := getPlayerBazaar_seller_id cache db pid now resp
  by_cases hne : (getPlayerBazaar cache db pid now resp).2 = []
  · rw [hne, storeBazaarItems_nil]
    simp [hne, sellerListings, hl]
  · by_cases hS : S = pid
    · subst hS
      rw [store_sellerListings_self _ _ now S hall hne]
      simp [hne]
    · rw [store_sellerListings_other _ _ now pid S hall hS]
      simp [hne, hS, sellerListings, hl]

/-- Claim C2 counterexample: seller 5 has one stored listing; a scan whose
fetch for seller 5 succeeds with an empty bazaar leaves that listing in
place, while the claim requires the listing set to become empty (equal to
the most recent successful-or-empty fetch result). -/
theorem c2_counterexample :
    sellerListings 5 ((scan ⟨[⟨5, none, true⟩], [],
        [⟨100, "Old", "Drug", 1, 1, 5, "Bob", 0, 0⟩], []⟩ [] none
        (CatalogResponse.ok []) (fun _ => BazaarResponse.ok none []) none 0).db)
      = [⟨100, "Old", "Drug", 1, 1, 5, "Bob", 0, 0⟩]
  ∧ ¬ sellerListings 5 ((scan ⟨[⟨5, none, true⟩], [],
        [⟨100, "Old", "Drug", 1, 1, 5, "Bob", 0, 0⟩], []⟩ [] none
        (CatalogResponse.ok []) (fun _ => BazaarResponse.ok none []) none 0).db)
      = [] := by
  constructor
  · decide
  · decide

/-! ### Claim C5: catalog refresh failure and the in-memory map -/

/-- The catalog loop restricted to well-formed entries: what has been
applied to the cache and the items table by the time a later entry is
reached. -/
def processGood (cache : Cache) (db : DB) (now : Nat) :
    List (Nat × RawCatalogEntry) → Cache × DB
  | [] => (cache, db)
  | (id, d) :: rest =>
      processGood (cacheInsert cache (mkCatalogItem id d))
        (dbUpsertItem db (mkItemRow id d now)) now rest

/-- Claim C5 (amended): when the catalog request itself fails, or the
payload lacks the items key, the in-memory map is untouched; but when a
malformed key is hit midway through the payload the entries already
processed remain in the map and in the items table — the refresh returns
an error without rolling the map back. -/
theorem c5_amended_refresh_failure (cache : Cache) (db : DB) (now : Nat)
    (pre : List (Nat × RawCatalogEntry)) (e : RawCatalogEntry)
    (rest : List (Option Nat × RawCatalogEntry)) :
    fetchItemsMetadata cache db now CatalogResponse.netFailure
        = (cache, db, false)
  ∧ fetchItemsMetadata cache db now CatalogResponse.noItemsKey
        = (cache, db, false)
  ∧ fetchItemsMetadata cache db now (CatalogResponse.ok
        (pre.map (fun p => (some p.1, p.2)) ++ (none, e) :: rest))
      = ((processGood cache db now pre).1,
         (processGood cache db now pre).2, false) := by
  refine ⟨rfl, rfl, ?_⟩
  induction pre generalizing cache db with
  | nil => rfl
  | cons p ps ih =>
      obtain ⟨id, d⟩ := p
      simp only [fetchItemsMetadata, List.map_cons, List.cons_append,
        processCatalogEntries, processGood]
      exact ih _ _

/-- Claim C5 counterexample: a payload whose first entry is well formed and
whose second entry has a non-integer key makes the refresh return an error
while the first entry has already been added to the previously empty
in-memory map — the map is not left untouched. -/
theorem c5_counterexample :
    (fetchItemsMetadata [] ⟨[], [], [], []⟩ 0 (CatalogResponse.ok
        [(some 100, ⟨some "Xanax", some "Drug", none, none, some 850⟩),
         (none, ⟨none, none, none, none, none⟩)])).2.2 = false
  ∧ ¬ (fetchItemsMetadata [] ⟨[], [], [], []⟩ 0 (CatalogResponse.ok
        [(some 100, ⟨some "Xanax", some "Drug", none, none, some 850⟩),
         (none, ⟨none, none, none, none, none⟩)])).1 = ([] : Cache) := by
  constructor
  · decide
  · decide

/-! ### Claim C1: catalog refresh failure aborts before anything happens -/

theorem processCatalogEntries_db (cache : Cache) (db : DB) (now : Nat)
    (entries : List (Option Nat × RawCatalogEntry)) :
    ((processCatalogEntries cache db now entries).2.1).trader_ids = db.trader_ids
  ∧ ((processCatalogEntries cache db now entries).2.1).listings = db.listings
  ∧ ((processCatalogEntries cache db now entries).2.1).scan_history
      = db.scan_history := by
  induction entries generalizing cache db with
  | nil => exact ⟨rfl, rfl, rfl⟩
  | cons p rest ih =>
      obtain ⟨k, d⟩ := p
      cases k with
      | none => exact ⟨rfl, rfl, rfl⟩
      | some id =>
          simp only [processCatalogEntries]
          exact ih _ _

theorem fetchItemsMetadata_db (cache : Cache) (db : DB) (now : Nat)
    (cresp : CatalogResponse) :
    ((fetchItemsMetadata cache db now cresp).2.1).trader_ids = db.trader_ids
  ∧ ((fetchItemsMetadata cache db now cresp).2.1).listings = db.listings
  ∧ ((fetchItemsMetadata cache db now cresp).2.1).scan_history
      = db.scan_history := by
  cases cresp with
  | netFailure => exact ⟨rfl, rfl, rfl⟩
  | noItemsKey => exact ⟨rfl, rfl, rfl⟩
  | ok entries => exact processCatalogEntries_db cache db now entries

/-- Claim C1 (amended): if the catalog refresh fails, the scan aborts
before any seller is contacted — no seller fetch happens, the Seller and
Listing rows are unmodified, the scan returns failure, and NO ScanRecord
is created at all (scan only inserts the running record after a successful
refresh), rather than a record with status failed. -/
theorem c1_amended_catalog_failure_aborts (db : DB) (cache : Cache)
    (limit : Option Nat) (cresp : CatalogResponse)
    (resp : Nat → BazaarResponse) (crashAfter : Option Nat) (t0 : Nat)
    (hfail : (fetchItemsMetadata cache db t0 cresp).2.2 = false) :
    ((scan db cache limit cresp resp crashAfter t0).db).trader_ids
        = db.trader_ids
  ∧ ((scan db cache limit cresp resp crashAfter t0).db).listings = db.listings
  ∧ ((scan db cache limit cresp resp crashAfter t0).db).scan_history
        = db.scan_history
  ∧ (scan db cache limit cresp resp crashAfter t0).fetchCalls = []
  ∧ (scan db cache limit cresp resp crashAfter t0).ok = false := by
  have h := fetchItemsMetadata_db cache db t0 cresp
  simp only [scan, hfail, Bool.not_false, if_true]
  exact ⟨h.1, h.2.1, h.2.2, trivial, trivial⟩

theorem c1_amended_catalog_failure_aborts_witness :
    (fetchItemsMetadata [] ⟨[⟨5, some 3, true⟩], [],
        [⟨1, "A", "B", 2, 1, 5, "S", 0, 0⟩], []⟩ 0
        CatalogResponse.netFailure).2.2 = false
  ∧ (((scan ⟨[⟨5, some 3, true⟩], [], [⟨1, "A", "B", 2, 1, 5, "S", 0, 0⟩], []⟩
        [] none CatalogResponse.netFailure (fun _ => BazaarResponse.netFailure)
        none 0).db).trader_ids = [⟨5, some 3, true⟩]
     ∧ ((scan ⟨[⟨5, some 3, true⟩], [], [⟨1, "A", "B", 2, 1, 5, "S", 0, 0⟩], []⟩
        [] none CatalogResponse.netFailure (fun _ => BazaarResponse.netFailure)
        none 0).db).listings = [⟨1, "A", "B", 2, 1, 5, "S", 0, 0⟩]
     ∧ ((scan ⟨[⟨5, some 3, true⟩], [], [⟨1, "A", "B", 2, 1, 5, "S", 0, 0⟩], []⟩
        [] none CatalogResponse.netFailure (fun _ => BazaarResponse.netFailure)
        none 0).db).scan_history = []
     ∧ (scan ⟨[⟨5, some 3, true⟩], [], [⟨1, "A", "B", 2, 1, 5, "S", 0, 0⟩], []⟩
        [] none CatalogResponse.netFailure (fun _ => BazaarResponse.netFailure)
        none 0).fetchCalls = []
     ∧ (scan ⟨[⟨5, some 3, true⟩], [], [⟨1, "A", "B", 2, 1, 5, "S", 0, 0⟩], []⟩
        [] none CatalogResponse.netFailure (fun _ => BazaarResponse.netFailure)
        none 0).ok = false) :=
  ⟨rfl, c1_amended_catalog_failure_aborts
    ⟨[⟨5, some 3, true⟩], [], [⟨1, "A", "B", 2, 1, 5, "S", 0, 0⟩], []⟩
    [] none CatalogResponse.netFailure (fun _ => BazaarResponse.netFailure)
    none 0 rfl⟩

/-- Claim C1 counterexample: when the catalog refresh fails, the scan
creates no ScanRecord at all — scan_history stays empty and in particular
no record with status failed and zero sellers attempted exists, contrary
to the claim. -/
theorem c1_counterexample :
    ((scan ⟨[⟨5, none, true⟩], [], [], []⟩ [] none CatalogResponse.netFailure
        (fun _ => BazaarResponse.netFailure) none 0).db).scan_history = []
  ∧ ¬ ∃ r ∈ ((scan ⟨[⟨5, none, true⟩], [], [], []⟩ [] none
        CatalogResponse.netFailure (fun _ => BazaarResponse.netFailure)
        none 0).db).scan_history, r.status = "failed" := by
  constructor
  · rfl
  · decide

/-! ### Claim C3: unexpected errors finalize the record without counts -/

theorem processTrader_scan_history (cache : Cache)
    (resp : Nat → BazaarResponse) (st : LoopState) (pid now : Nat) :
    ((processTrader cache resp st pid now).db).scan_history
      = st.db.scan_history := by
  simp only [processTrader]
  by_cases h : (st.allItems
      ++ (getPlayerBazaar cache st.db pid now (resp pid)).2).length ≥ 100
  · rw [if_pos h]
    simp [storeBazaarItems_scan_history, getPlayerBazaar_scan_history]
  · rw [if_neg h]
    simp [getPlayerBazaar_scan_history]

theorem runLoop_scan_history (cache : Cache) (resp : Nat → BazaarResponse)
    (ids : List Nat) (now : Nat) (st : LoopState) :
    ((runLoop cache resp ids now st).db).scan_history
      = st.db.scan_history := by
  induction ids generalizing now st with
  | nil => rfl
  | cons pid rest ih =>
      rw [runLoop, ih, processTrader_scan_history]

theorem mem_endScanFailed (db : DB) (sid now : Nat) (rec : ScanRecord)
    (hmem : rec ∈ db.scan_history) (hid : rec.id = sid) :
    { rec with end_time := some now, status := "failed" }
      ∈ (endScanFailed db sid now).scan_history := by
  simp only [endScanFailed]
  refine List.mem_map.mpr ⟨rec, hmem, ?_⟩
  rw [hid]
  simp

/-- Claim C3 (amended): an unexpected exception during the seller loop
finalizes the open ScanRecord with an end timestamp and status failed, but
the failure-path UPDATE writes no counts: the record keeps the
sellers-attempted and listings-found values it was created with (zero),
not the counts accumulated up to the abort. -/
theorem c3_amended_failed_record (db : DB) (cache : Cache)
    (limit : Option Nat) (cresp : CatalogResponse)
    (resp : Nat → BazaarResponse) (k t0 : Nat)
    (hok : (fetchItemsMetadata cache db t0 cresp).2.2 = true)
    (hne : activeTraders (fetchItemsMetadata cache db t0 cresp).2.1 limit
      ≠ []) :
    ∃ r ∈ ((scan db cache limit cresp resp (some k) t0).db).scan_history,
      r.status = "failed" ∧ r.end_time = some (t0 + 2 + k)
      ∧ r.traders_scanned = 0 ∧ r.items_found = 0 := by
  have hids : (activeTraders
      (startScan (fetchItemsMetadata cache db t0 cresp).2.1 (t0 + 1)).1
      limit).isEmpty = false := by
    rw [List.isEmpty_eq_false]
    exact hne
  simp only [scan, hok, Bool.not_true, Bool.false_eq_true, if_false, hids]
  have hsh : ((runLoop (fetchItemsMetadata cache db t0 cresp).1 resp
      ((activeTraders
        (startScan (fetchItemsMetadata cache db t0 cresp).2.1 (t0 + 1)).1
        limit).take k) (t0 + 2)
      { db := (startScan (fetchItemsMetadata cache db t0 cresp).2.1 (t0 + 1)).1,
        tradersScanned := 0, itemsFound := 0, allItems := [],
        flushes := [], fetchCalls := [] }).db).scan_history
      = ((fetchItemsMetadata cache db t0 cresp).2.1).scan_history
        ++ [⟨nextScanId (fetchItemsMetadata cache db t0 cresp).2.1, t0 + 1,
             none, 0, 0, "running"⟩] := by
    rw [runLoop_scan_history]
    rfl
  refine ⟨_, mem_endScanFailed _ _ _
    ⟨nextScanId (fetchItemsMetadata cache db t0 cresp).2.1, t0 + 1,
     none, 0, 0, "running"⟩ ?_ rfl, rfl, rfl, rfl, rfl⟩
  rw [hsh]
  exact List.mem_append_right _ (List.mem_cons_self _ _)

theorem c3_amended_failed_record_witness :
    (fetchItemsMetadata [] ⟨[⟨5, none, true⟩], [], [], []⟩ 0
        (CatalogResponse.ok [])).2.2 = true
  ∧ activeTraders (fetchItemsMetadata [] ⟨[⟨5, none, true⟩], [], [], []⟩ 0
        (CatalogResponse.ok [])).2.1 none ≠ []
  ∧ ∃ r ∈ ((scan ⟨[⟨5, none, true⟩], [], [], []⟩ [] none
        (CatalogResponse.ok [])
        (fun _ => BazaarResponse.ok (some "Bob")
          [(100, ⟨none, none, some 900, some 5, none⟩)]) (some 1) 0).db).scan_history,
      r.status = "failed" ∧ r.end_time = some 3
      ∧ r.traders_scanned = 0 ∧ r.items_found = 0 :=
  ⟨rfl, by decide,
   c3_amended_failed_record ⟨[⟨5, none, true⟩], [], [], []⟩ [] none
     (CatalogResponse.ok [])
     (fun _ => BazaarResponse.ok (some "Bob")
       [(100, ⟨none, none, some 900, some 5, none⟩)]) 1 0 rfl (by decide)⟩

/-- Claim C3 counterexample: a scan of one seller, whose fetch finds one
listing, aborted by an unexpected exception after that seller, ends with
the in-memory counters at 1 seller attempted and 1 listing found, but the
finalized failed record carries counts 0 and 0 — the accumulated partial
counts are NOT retained in the record. -/
theorem c3_counterexample :
    (scan ⟨[⟨5, none, true⟩], [], [], []⟩ [] none (CatalogResponse.ok [])
        (fun _ => BazaarResponse.ok (some "Bob")
          [(100, ⟨none, none, some 900, some 5, none⟩)]) (some 1) 0).tradersScanned
      = 1
  ∧ (scan ⟨[⟨5, none, true⟩], [], [], []⟩ [] none (CatalogResponse.ok [])
        (fun _ => BazaarResponse.ok (some "Bob")
          [(100, ⟨none, none, some 900, some 5, none⟩)]) (some 1) 0).itemsFound
      = 1
  ∧ ((scan ⟨[⟨5, none, true⟩], [], [], []⟩ [] none (CatalogResponse.ok [])
        (fun _ => BazaarResponse.ok (some "Bob")
          [(100, ⟨none, none, some 900, some 5, none⟩)]) (some 1) 0).db).scan_history
      = [⟨1, 1, some 3, 0, 0, "failed"⟩] := by
  refine ⟨?_, ?_, ?_⟩ <;> decide

/-! ### Claim C9: the snapshot writer never receives an empty batch -/

theorem processTrader_flushes (cache : Cache) (resp : Nat → BazaarResponse)
    (st : LoopState) (pid now : Nat) (h : ∀ b ∈ st.flushes, b ≠ []) :
    ∀ b ∈ (processTrader cache resp st pid now).flushes, b ≠ [] := by
  intro b hb
  simp only [processTrader] at hb
  by_cases hc : (st.allItems
      ++ (getPlayerBazaar cache st.db pid now (resp pid)).2).length ≥ 100
  · rw [if_pos hc] at hb
    rcases List.mem_append.mp hb with hb1 | hb2
    · exact h b hb1
    · have hbe := List.mem_singleton.mp hb2
      subst hbe
      intro hnil
      rw [hnil] at hc
      simp at hc
  · rw [if_neg hc] at hb
    exact h b hb

theorem runLoop_flushes (cache : Cache) (resp : Nat → BazaarResponse)
    (ids : List Nat) (now : Nat) (st : LoopState)
    (h : ∀ b ∈ st.flushes, b ≠ []) :
    ∀ b ∈ (runLoop cache resp ids now st).flushes, b ≠ [] := by
  induction ids generalizing now st with
  | nil => exact h
  | cons pid rest ih =>
      rw [runLoop]
      exact ih _ _ (processTrader_flushes cache resp st pid now h)

theorem final_flush_nonempty (st : LoopState) (m : Nat)
    (h : ∀ b ∈ st.flushes, b ≠ []) :
    ∀ b ∈ (if st.allItems.isEmpty then (st.db, st.flushes)
        else (storeBazaarItems st.db st.allItems m,
              st.flushes ++ [st.allItems])).2, b ≠ [] := by
  intro b hb
  by_cases he : st.allItems.isEmpty = true
  · rw [if_pos he] at hb
    exact h b hb
  · rw [if_neg he] at hb
    rcases List.mem_append.mp hb with h1 | h2
    · exact h b h1
    · have hbe := List.mem_singleton.mp h2
      subst hbe
      intro hnil
      exact he (by rw [hnil]; rfl)

/-- Claim C9: the snapshot writer is only ever invoked on a non-empty
batch — the in-loop flush fires when the accumulator length reached the
threshold 100 (hence non-empty) and the end-of-scan flush is guarded by a
non-empty check on the remaining accumulator. -/
theorem c9_flush_batches_nonempty (db : DB) (cache : Cache)
    (limit : Option Nat) (cresp : CatalogResponse)
    (resp : Nat → BazaarResponse) (crashAfter : Option Nat) (t0 : Nat) :
    ∀ b ∈ (scan db cache limit cresp resp crashAfter t0).flushes, b ≠ [] := by
  intro b hb
  by_cases hm : (fetchItemsMetadata cache db t0 cresp).2.2 = true
  · simp only [scan, hm, Bool.not_true, Bool.false_eq_true, if_false] at hb
    by_cases hids : (activeTraders
        (startScan (fetchItemsMetadata cache db t0 cresp).2.1 (t0 + 1)).1
        limit).isEmpty = true
    · rw [if_pos hids] at hb
      simp at hb
    · rw [if_neg hids] at hb
      cases crashAfter with
      | some k =>
          exact runLoop_flushes _ _ _ _ _ (by intro x hx; cases hx) b hb
      | none =>
          exact final_flush_nonempty _ _
            (runLoop_flushes _ _ _ _ _ (by intro x hx; cases hx)) b hb
  · rw [Bool.not_eq_true] at hm
    simp only [scan, hm, Bool.not_false, if_true] at hb
    cases hb

theorem c9_flush_batches_nonempty_witness :
    ([(⟨100, "Unknown Item", "Miscellaneous", 900, 5, 5, "Bob", 0⟩ : BazaarItem)]
        ∈ (scan ⟨[⟨5, none, true⟩], [], [], []⟩ [] none (CatalogResponse.ok [])
            (fun _ => BazaarResponse.ok (some "Bob")
              [(100, ⟨none, none, some 900, some 5, none⟩)]) none 0).flushes)
  ∧ [(⟨100, "Unknown Item", "Miscellaneous", 900, 5, 5, "Bob", 0⟩ : BazaarItem)]
      ≠ ([] : List BazaarItem) :=
  ⟨by decide,
   c9_flush_batches_nonempty ⟨[⟨5, none, true⟩], [], [], []⟩ [] none
     (CatalogResponse.ok [])
     (fun _ => BazaarResponse.ok (some "Bob")
       [(100, ⟨none, none, some 900, some 5, none⟩)]) none 0
     [⟨100, "Unknown Item", "Miscellaneous", 900, 5, 5, "Bob", 0⟩]
     (by decide)⟩

end BazaarScan
